import Mathlib

/-!
N5HomingMode::executeHoming (ros2_canopen, canopen_402_driver)

A shallow embedding of `src/canopen_402_driver/src/n5_homing_mode.cpp` together with
the constants of `include/canopen_402_driver/n5_homing_mode.hpp`.

The C++ function talks to three collaborators that are not part of the two files:
`driver->sync_sdo_read_typed`, `driver->sync_sdo_write_typed` and
`DefaultHomingMode::executeHoming`.  Their answers are inputs of the model (`Env`);
every call is recorded, with its arguments and its answer, in the trace of the run,
as is every line written to `std::cout`.
-/

namespace ros2_canopen

/-! ## Data model -/

/-- The lines `executeHoming` writes to `std::cout`, one constructor per statement. -/
inductive Msg where
  /-- Line 43: "Motor is already homed (statusword: 0x..), skipping homing sequence". -/
  | alreadyHomed (statusword : Nat)
  /-- Line 56: "Warning - Failed to set safe limit behavior". -/
  | restoreWarning
  /-- Line 63: "Motor not homed, proceeding with homing sequence". -/
  | notHomed
  /-- Line 66: "Setting limit behavior to <v> for homing". -/
  | settingForHoming (v : Int)
  /-- Line 78: "Failed to set limit behavior before homing". -/
  | preConfigFailed
  /-- Line 83: "Executing homing sequence". -/
  | executing
  /-- Line 88: "Setting limit behavior to <v> for normal operation". -/
  | settingForOperation (v : Int)
  /-- Line 100: "ERROR - Failed to restore safe limit behavior after homing!". -/
  | restoreFailed
  /-- Line 108: "Homing sequence failed (but safe limits were restored)". -/
  | homingFailed
  /-- Line 112: "Homing completed successfully". -/
  | completed
  deriving DecidableEq, Repr

/-- One observable step of a run: a call of a collaborator with its arguments and the
answer it gave, or a line on `std::cout`. -/
inductive Event where
  /-- A call `driver->sync_sdo_read_typed<uint16_t>(index, sub, statusword, timeout)`;
  `ok` is the returned flag and `value` the content of `statusword` after the call. -/
  | sdoRead (index sub timeoutMs : Nat) (ok : Bool) (value : Nat)
  /-- A call `driver->sync_sdo_write_typed<int16_t>(index, sub, value, timeout)` and the
  flag it returned. -/
  | sdoWrite (index sub : Nat) (value : Int) (timeoutMs : Nat) (ok : Bool)
  /-- A call `DefaultHomingMode::executeHoming()` and the flag it returned. -/
  | defaultHoming (ok : Bool)
  /-- A line written to `std::cout`. -/
  | cout (m : Msg)
  deriving DecidableEq, Repr

/-- The `return` statement through which a run left `executeHoming`.  The C++ function
returns a plain `bool`; this tag only records which of its five `return`s was taken. -/
inductive HomingOutcome where
  /-- Line 59, `return true` on the already-homed path. -/
  | AlreadyHomed
  /-- Line 113, `return true` after homing and restore both succeeded. -/
  | Completed
  /-- Line 109, `return false` under `if (!homing_success)`. -/
  | HomingFailed
  /-- Line 79, `return false` under `if (!write_success)`. -/
  | PreConfigFailed
  /-- Line 103, `return false` under `if (!restore_success)` after homing. -/
  | RestoreFailed
  deriving DecidableEq, Repr

/-- The answers of the collaborators during one invocation. -/
structure Env where
  /-- The flag returned by `sync_sdo_read_typed`. -/
  readOk : Bool
  /-- The content of the by-reference variable `statusword` after the read call
  (meaningful to the code only when `readOk`); reduced modulo `2^16` on use. -/
  readWord : Nat
  /-- The flag returned by the `k`-th call of `sync_sdo_write_typed` of the invocation
  (`k` counts the write calls issued before it). -/
  writeOk : Nat → Bool
  /-- The flag returned by `DefaultHomingMode::executeHoming`. -/
  homingOk : Bool

/-- The state threaded through a run. -/
structure World where
  /-- Content of the device object 0x3701:0, "behavior upon reaching limit switch". -/
  limitGuard : Int
  /-- Number of `sync_sdo_write_typed` calls issued so far. -/
  writes : Nat
  /-- Everything observed so far, oldest first. -/
  trace : List Event
  deriving DecidableEq, Repr

/-- What an invocation leaves behind. -/
structure Run where
  /-- The `bool` returned to the caller. -/
  ret : Bool
  /-- The `return` statement taken. -/
  exit : HomingOutcome
  /-- Content of the device object 0x3701:0 at the end. -/
  limitGuard : Int
  /-- Everything observed during the invocation, oldest first. -/
  trace : List Event
  deriving DecidableEq, Repr

/-! ## Constants of `N5HomingMode` (n5_homing_mode.hpp, lines 38-40) -/

/-- Header line 38: `const uint16_t limit_behavior_index_ = 0x3701`. -/
def limit_behavior_index_ : Nat := 0x3701

/-- Header line 39: `const int16_t homing_limit_value_ = -1`. -/
def homing_limit_value_ : Int := -1

/-- Header line 40: `const int16_t operational_limit_value_ = 6`. -/
def operational_limit_value_ : Int := 6

/-- Source line 38: `const uint16_t HOMING_ATTAINED = (1 << 12)`. -/
def HOMING_ATTAINED : Nat := (1 <<< 12) % 2 ^ 16

/-- Source line 39: `const uint16_t TARGET_REACHED = (1 << 10)`. -/
def TARGET_REACHED : Nat := (1 <<< 10) % 2 ^ 16

/-! ## Collaborators -/

/-- The call `driver->sync_sdo_read_typed<uint16_t>(index, sub, statusword, timeout)`:
returns the flag and the new content of the `uint16_t` variable, and records the call.
The device register is not changed by a read. -/
def sync_sdo_read_typed (env : Env) (s : World) (index sub timeoutMs : Nat) :
    Bool × Nat × World :=
  let value := env.readWord % 2 ^ 16
  (env.readOk, value,
    { s with trace := s.trace ++ [Event.sdoRead index sub timeoutMs env.readOk value] })

/-- The call `driver->sync_sdo_write_typed<int16_t>(index, sub, value, timeout)`:
a successful write to 0x3701:0 stores the value in the limit-guard register, a failed
write (or a write elsewhere) leaves the register as it was. -/
def sync_sdo_write_typed (env : Env) (s : World) (index sub : Nat) (value : Int)
    (timeoutMs : Nat) : Bool × World :=
  let ok := env.writeOk s.writes
  (ok,
    { limitGuard := if ok && index == 0x3701 && sub == 0 then value else s.limitGuard
      writes := s.writes + 1
      trace := s.trace ++ [Event.sdoWrite index sub value timeoutMs ok] })

/-- The call `DefaultHomingMode::executeHoming()`: returns its flag and records the
call; the standard homing procedure does not touch the limit-guard register. -/
def DefaultHomingMode.executeHoming (env : Env) (s : World) : Bool × World :=
  (env.homingOk, { s with trace := s.trace ++ [Event.defaultHoming env.homingOk] })

/-- The statement `std::cout << ... << std::endl`. -/
def cout (s : World) (m : Msg) : World :=
  { s with trace := s.trace ++ [Event.cout m] }

/-- Leaving the function: the returned `bool`, the `return` statement taken and the
final state. -/
def finish (s : World) (ret : Bool) (exit : HomingOutcome) : Run :=
  { ret := ret, exit := exit, limitGuard := s.limitGuard, trace := s.trace }

/-! ## The function -/

/-- Lines 63-113 of n5_homing_mode.cpp: the configure, home and restore sequence that
follows the already-homed check. -/
def N5HomingMode.configureAndHome (env : Env) (s : World) : Run :=
  let s := cout s Msg.notHomed
  -- Step 1: configure limit switch behavior for homing (ignore limits)
  let s := cout s (Msg.settingForHoming homing_limit_value_)
  let (write_success, s) :=
    sync_sdo_write_typed env s limit_behavior_index_ 0 homing_limit_value_ 100
  if !write_success then
    let s := cout s Msg.preConfigFailed
    finish s false HomingOutcome.PreConfigFailed
  else
    -- Step 2: execute the standard homing sequence
    let s := cout s Msg.executing
    let (homing_success, s) := DefaultHomingMode.executeHoming env s
    -- Step 3: always restore safe limit switch behavior
    let s := cout s (Msg.settingForOperation operational_limit_value_)
    let (restore_success, s) :=
      sync_sdo_write_typed env s limit_behavior_index_ 0 operational_limit_value_ 100
    if !restore_success then
      let s := cout s Msg.restoreFailed
      finish s false HomingOutcome.RestoreFailed
    else if !homing_success then
      let s := cout s Msg.homingFailed
      finish s false HomingOutcome.HomingFailed
    else
      let s := cout s Msg.completed
      finish s true HomingOutcome.Completed

/-- The function `bool N5HomingMode::executeHoming()` (n5_homing_mode.cpp, lines 23-114),
run from the state `s`. -/
def N5HomingMode.executeHomingFrom (env : Env) (s : World) : Run :=
  -- Step 0: check if already homed by reading the statusword
  let (statusword_read_success, statusword, s) := sync_sdo_read_typed env s 0x6041 0 100
  if statusword_read_success then
    if (statusword &&& HOMING_ATTAINED) != 0 && (statusword &&& TARGET_REACHED) != 0 then
      let s := cout s (Msg.alreadyHomed statusword)
      -- Still need to ensure safe limit behavior is set
      let (restore_success, s) :=
        sync_sdo_write_typed env s limit_behavior_index_ 0 operational_limit_value_ 100
      let s := if !restore_success then cout s Msg.restoreWarning else s
      finish s true HomingOutcome.AlreadyHomed
    else
      N5HomingMode.configureAndHome env s
  else
    N5HomingMode.configureAndHome env s

/-- One invocation of `N5HomingMode::executeHoming` on a device whose limit-guard
register holds `reg0`. -/
def N5HomingMode.executeHoming (env : Env) (reg0 : Int) : Run :=
  N5HomingMode.executeHomingFrom env { limitGuard := reg0, writes := 0, trace := [] }

/-! ## Observations on a trace -/

/-- The calls of collaborators (register reads and writes, the standard homing
procedure), as opposed to console output. -/
def Event.isDeviceOp : Event → Bool
  | Event.cout _ => false
  | _ => true

/-- The register operations: reads and writes through the driver. -/
def Event.isRegisterOp : Event → Bool
  | Event.sdoRead _ _ _ _ _ => true
  | Event.sdoWrite _ _ _ _ _ => true
  | _ => false

/-- A call of the standard homing procedure. -/
def Event.isHoming : Event → Bool
  | Event.defaultHoming _ => true
  | _ => false

/-- A write of `value` to the limit-guard register 0x3701:0, whatever its result. -/
def Event.isGuardWrite (value : Int) : Event → Bool
  | Event.sdoWrite index sub v _ _ => index == 0x3701 && sub == 0 && v == value
  | _ => false

/-- The trace without the console output. -/
def deviceOps (t : List Event) : List Event := t.filter Event.isDeviceOp

/-- A register read through the driver. -/
def Event.isRead : Event → Bool
  | Event.sdoRead _ _ _ _ _ => true
  | _ => false

/-- A register write through the driver. -/
def Event.isWrite : Event → Bool
  | Event.sdoWrite _ _ _ _ _ => true
  | _ => false

/-- The reads and writes of a trace, in order. -/
def registerOps (t : List Event) : List Event := t.filter Event.isRegisterOp

/-- An event as issued by the caller: the value a read brought back is an answer of the
device, not part of the operation, and is blanked; everything else is kept. -/
def Event.issued : Event → Event
  | Event.sdoRead index sub timeoutMs ok _ => Event.sdoRead index sub timeoutMs ok 0
  | e => e

/-- The environment in which the read answers `(r, w)`, the first write `d`, every later
write `s`, and the standard homing procedure `h`. -/
def scenario (r : Bool) (w : Nat) (d h s : Bool) : Env :=
  { readOk := r, readWord := w, writeOk := fun k => if k = 0 then d else s, homingOk := h }

/-! ## The five paths of a run -/

/-- The already-homed test of source line 41 on a 16-bit status word. -/
def homedBits (w : Nat) : Bool :=
  (w &&& HOMING_ATTAINED) != 0 && (w &&& TARGET_REACHED) != 0

/-- The status word a run sees. -/
def Env.word (env : Env) : Nat := env.readWord % 2 ^ 16

/-- The read event every run starts with. -/
def Env.readEvent (env : Env) : Event :=
  Event.sdoRead 0x6041 0 100 env.readOk env.word

/-- The part of the trace common to every run that leaves the already-homed check
through the configure-and-home sequence, up to the guard-disable write. -/
def Env.configureTrace (env : Env) : List Event :=
  [env.readEvent, Event.cout Msg.notHomed, Event.cout (Msg.settingForHoming (-1)),
   Event.sdoWrite 0x3701 0 (-1) 100 (env.writeOk 0)]

/-- The part of the trace from the homing call to the restore write. -/
def Env.homeTrace (env : Env) : List Event :=
  [Event.cout Msg.executing, Event.defaultHoming env.homingOk,
   Event.cout (Msg.settingForOperation 6), Event.sdoWrite 0x3701 0 6 100 (env.writeOk 1)]

theorem run_alreadyHomed (env : Env) (reg0 : Int)
    (hr : env.readOk = true) (hb : homedBits env.word = true) :
    N5HomingMode.executeHoming env reg0 =
      { ret := true, exit := HomingOutcome.AlreadyHomed,
        limitGuard := if env.writeOk 0 = true then 6 else reg0,
        trace := [env.readEvent, Event.cout (Msg.alreadyHomed env.word),
                  Event.sdoWrite 0x3701 0 6 100 (env.writeOk 0)] ++
                 (if env.writeOk 0 = true then [] else [Event.cout Msg.restoreWarning]) } := by
  simp [homedBits, Env.word] at hb
  cases h0 : env.writeOk 0 <;>
  simp [N5HomingMode.executeHoming, N5HomingMode.executeHomingFrom, sync_sdo_read_typed,
    sync_sdo_write_typed, cout, finish, hr, hb, h0, Env.readEvent, Env.word,
    limit_behavior_index_, operational_limit_value_]

theorem run_configure (env : Env) (reg0 : Int)
    (hn : (env.readOk && homedBits env.word) = false) :
    N5HomingMode.executeHoming env reg0 =
      N5HomingMode.configureAndHome env
        { limitGuard := reg0, writes := 0, trace := [env.readEvent] } := by
  cases hr : env.readOk
  · simp [N5HomingMode.executeHoming, N5HomingMode.executeHomingFrom, sync_sdo_read_typed,
      hr, Env.readEvent, Env.word]
  · simp [hr, homedBits, Env.word] at hn
    simp [N5HomingMode.executeHoming, N5HomingMode.executeHomingFrom, sync_sdo_read_typed,
      hr, Env.readEvent, Env.word]
    intro ha hb
    exact absurd (hn ha) hb

theorem run_preConfigFailed (env : Env) (reg0 : Int)
    (hn : (env.readOk && homedBits env.word) = false) (h0 : env.writeOk 0 = false) :
    N5HomingMode.executeHoming env reg0 =
      { ret := false, exit := HomingOutcome.PreConfigFailed, limitGuard := reg0,
        trace := env.configureTrace ++ [Event.cout Msg.preConfigFailed] } := by
  rw [run_configure env reg0 hn]
  simp [N5HomingMode.configureAndHome, sync_sdo_write_typed, cout, finish, h0,
    Env.configureTrace, limit_behavior_index_, homing_limit_value_]

theorem run_restoreFailed (env : Env) (reg0 : Int)
    (hn : (env.readOk && homedBits env.word) = false) (h0 : env.writeOk 0 = true)
    (h1 : env.writeOk 1 = false) :
    N5HomingMode.executeHoming env reg0 =
      { ret := false, exit := HomingOutcome.RestoreFailed, limitGuard := -1,
        trace := env.configureTrace ++ env.homeTrace ++ [Event.cout Msg.restoreFailed] } := by
  rw [run_configure env reg0 hn]
  simp [N5HomingMode.configureAndHome, sync_sdo_write_typed, DefaultHomingMode.executeHoming,
    cout, finish, h0, h1, Env.configureTrace, Env.homeTrace, limit_behavior_index_,
    homing_limit_value_, operational_limit_value_]

theorem run_homingFailed (env : Env) (reg0 : Int)
    (hn : (env.readOk && homedBits env.word) = false) (h0 : env.writeOk 0 = true)
    (h1 : env.writeOk 1 = true) (hh : env.homingOk = false) :
    N5HomingMode.executeHoming env reg0 =
      { ret := false, exit := HomingOutcome.HomingFailed, limitGuard := 6,
        trace := env.configureTrace ++ env.homeTrace ++ [Event.cout Msg.homingFailed] } := by
  rw [run_configure env reg0 hn]
  simp [N5HomingMode.configureAndHome, sync_sdo_write_typed, DefaultHomingMode.executeHoming,
    cout, finish, h0, h1, hh, Env.configureTrace, Env.homeTrace, limit_behavior_index_,
    homing_limit_value_, operational_limit_value_]

theorem run_completed (env : Env) (reg0 : Int)
    (hn : (env.readOk && homedBits env.word) = false) (h0 : env.writeOk 0 = true)
    (h1 : env.writeOk 1 = true) (hh : env.homingOk = true) :
    N5HomingMode.executeHoming env reg0 =
      { ret := true, exit := HomingOutcome.Completed, limitGuard := 6,
        trace := env.configureTrace ++ env.homeTrace ++ [Event.cout Msg.completed] } := by
  rw [run_configure env reg0 hn]
  simp [N5HomingMode.configureAndHome, sync_sdo_write_typed, DefaultHomingMode.executeHoming,
    cout, finish, h0, h1, hh, Env.configureTrace, Env.homeTrace, limit_behavior_index_,
    homing_limit_value_, operational_limit_value_]


/-- Case analysis on a run: a property that holds of the five explicit runs holds of
every invocation. -/
theorem run_cases (env : Env) (reg0 : Int) (P : Run → Prop)
    (hA : env.readOk = true → homedBits env.word = true →
      P { ret := true, exit := HomingOutcome.AlreadyHomed,
          limitGuard := if env.writeOk 0 = true then 6 else reg0,
          trace := [env.readEvent, Event.cout (Msg.alreadyHomed env.word),
                    Event.sdoWrite 0x3701 0 6 100 (env.writeOk 0)] ++
                   (if env.writeOk 0 = true then [] else [Event.cout Msg.restoreWarning]) })
    (hP : (env.readOk && homedBits env.word) = false → env.writeOk 0 = false →
      P { ret := false, exit := HomingOutcome.PreConfigFailed, limitGuard := reg0,
          trace := env.configureTrace ++ [Event.cout Msg.preConfigFailed] })
    (hR : (env.readOk && homedBits env.word) = false → env.writeOk 0 = true →
      env.writeOk 1 = false →
      P { ret := false, exit := HomingOutcome.RestoreFailed, limitGuard := -1,
          trace := env.configureTrace ++ env.homeTrace ++ [Event.cout Msg.restoreFailed] })
    (hH : (env.readOk && homedBits env.word) = false → env.writeOk 0 = true →
      env.writeOk 1 = true → env.homingOk = false →
      P { ret := false, exit := HomingOutcome.HomingFailed, limitGuard := 6,
          trace := env.configureTrace ++ env.homeTrace ++ [Event.cout Msg.homingFailed] })
    (hC : (env.readOk && homedBits env.word) = false → env.writeOk 0 = true →
      env.writeOk 1 = true → env.homingOk = true →
      P { ret := true, exit := HomingOutcome.Completed, limitGuard := 6,
          trace := env.configureTrace ++ env.homeTrace ++ [Event.cout Msg.completed] }) :
    P (N5HomingMode.executeHoming env reg0) := by
  cases hn : (env.readOk && homedBits env.word)
  · cases h0 : env.writeOk 0
    · rw [run_preConfigFailed env reg0 hn h0]; exact hP hn h0
    · cases h1 : env.writeOk 1
      · rw [run_restoreFailed env reg0 hn h0 h1]; exact hR hn h0 h1
      · cases hh : env.homingOk
        · rw [run_homingFailed env reg0 hn h0 h1 hh]; exact hH hn h0 h1 hh
        · rw [run_completed env reg0 hn h0 h1 hh]; exact hC hn h0 h1 hh
  · have hr : env.readOk = true := by
      cases h : env.readOk <;> simp [h] at hn ⊢
    have hb : homedBits env.word = true := by
      cases h : homedBits env.word <;> simp [h] at hn ⊢
    rw [run_alreadyHomed env reg0 hr hb]; exact hA hr hb

/-! ## The already-homed test, bit by bit -/

theorem homedBits_eq_testBit (w : Nat) :
    homedBits w = (w.testBit 12 && w.testBit 10) := by
  have hH : HOMING_ATTAINED = 2 ^ 12 := by decide
  have hT : TARGET_REACHED = 2 ^ 10 := by decide
  unfold homedBits
  rw [hH, hT, Nat.and_two_pow, Nat.and_two_pow]
  cases w.testBit 12 <;> cases w.testBit 10 <;> decide

theorem mask_eq_iff_testBit (w : Nat) :
    w &&& 0x1400 = 0x1400 ↔ (w.testBit 12 = true ∧ w.testBit 10 = true) := by
  rw [show (0x1400 : Nat) = 2 ^ 12 ||| 2 ^ 10 by decide, Nat.and_or_distrib_left,
    Nat.and_two_pow, Nat.and_two_pow]
  cases w.testBit 12 <;> cases w.testBit 10 <;> decide

/-- The read recorded in the trace of a run is the one the environment answered. -/
theorem read_mem_trace (env : Env) (reg0 : Int) (i s t : Nat) (ok : Bool) (w : Nat)
    (h : Event.sdoRead i s t ok w ∈ (N5HomingMode.executeHoming env reg0).trace) :
    ok = env.readOk ∧ w = env.word := by
  revert h
  refine run_cases env reg0 (fun r => Event.sdoRead i s t ok w ∈ r.trace →
    ok = env.readOk ∧ w = env.word) ?_ ?_ ?_ ?_ ?_
  · intro _ _
    cases h0 : env.writeOk 0 <;> simp [Env.readEvent]
  all_goals
    intros
    simp_all [Env.configureTrace, Env.homeTrace, Env.readEvent]

/-! ## Claims -/

/-- C1 (amended): in the register model, at the end of every invocation the limit-guard
register holds 6, or a restoring write of 6 was attempted and failed, or the
guard-disable write of -1 failed, in which case no write of 6 was attempted and the
register still holds its initial value. -/
theorem limitGuard_safe_unless_write_failed (env : Env) (reg0 : Int) :
    (N5HomingMode.executeHoming env reg0).limitGuard = 6 ∨
    Event.sdoWrite 0x3701 0 6 100 false ∈ (N5HomingMode.executeHoming env reg0).trace ∨
    (Event.sdoWrite 0x3701 0 (-1) 100 false ∈ (N5HomingMode.executeHoming env reg0).trace ∧
      (∀ e ∈ (N5HomingMode.executeHoming env reg0).trace, Event.isGuardWrite 6 e = false) ∧
      (N5HomingMode.executeHoming env reg0).limitGuard = reg0) := by
  refine run_cases env reg0 (fun r => r.limitGuard = 6 ∨
    Event.sdoWrite 0x3701 0 6 100 false ∈ r.trace ∨
    (Event.sdoWrite 0x3701 0 (-1) 100 false ∈ r.trace ∧
      (∀ e ∈ r.trace, Event.isGuardWrite 6 e = false) ∧ r.limitGuard = reg0)) ?_ ?_ ?_ ?_ ?_
  · intro _ _
    cases h0 : env.writeOk 0 <;> simp
  · intro _ h0
    simp [Env.configureTrace, Env.readEvent, Event.isGuardWrite, h0]
  · intro _ h0 h1
    simp [Env.configureTrace, Env.homeTrace, h0, h1]
  · intro _ _ _ _
    simp
  · intro _ _ _ _
    simp

/-- C1 (as stated, refuted): with the status read timing out and the guard-disable
write failing on a device whose register holds 0, the run ends with the register at 0
although no write of 6 was attempted. -/
theorem limitGuard_invariant_fails_on_preconfig_failure :
    ¬ ((N5HomingMode.executeHoming (scenario false 0 false true false) 0).limitGuard = 6 ∨
       ∃ e ∈ (N5HomingMode.executeHoming (scenario false 0 false true false) 0).trace,
         Event.isGuardWrite 6 e = true) := by
  decide

/-- C2: whenever the guard-disable write succeeded and the restore write of 6 failed,
the run leaves through the restore-failure branch: it returns false, its last console
line is the restore-failure error, and it is neither Completed nor HomingFailed. This
holds for either result of the standard homing procedure, which was called. -/
theorem restore_failure_dominates (env : Env) (reg0 : Int)
    (hd : Event.sdoWrite 0x3701 0 (-1) 100 true ∈ (N5HomingMode.executeHoming env reg0).trace)
    (hs : Event.sdoWrite 0x3701 0 6 100 false ∈ (N5HomingMode.executeHoming env reg0).trace) :
    (N5HomingMode.executeHoming env reg0).exit = HomingOutcome.RestoreFailed ∧
    (N5HomingMode.executeHoming env reg0).ret = false ∧
    (N5HomingMode.executeHoming env reg0).exit ≠ HomingOutcome.Completed ∧
    (N5HomingMode.executeHoming env reg0).exit ≠ HomingOutcome.HomingFailed ∧
    (N5HomingMode.executeHoming env reg0).trace.getLast? = some (Event.cout Msg.restoreFailed) ∧
    Event.defaultHoming env.homingOk ∈ (N5HomingMode.executeHoming env reg0).trace := by
  revert hd hs
  refine run_cases env reg0 (fun r =>
    Event.sdoWrite 0x3701 0 (-1) 100 true ∈ r.trace →
    Event.sdoWrite 0x3701 0 6 100 false ∈ r.trace →
    r.exit = HomingOutcome.RestoreFailed ∧ r.ret = false ∧
    r.exit ≠ HomingOutcome.Completed ∧ r.exit ≠ HomingOutcome.HomingFailed ∧
    r.trace.getLast? = some (Event.cout Msg.restoreFailed) ∧
    Event.defaultHoming env.homingOk ∈ r.trace) ?_ ?_ ?_ ?_ ?_
  · intro _ _
    cases h0 : env.writeOk 0 <;> simp [Env.readEvent]
  · intro _ h0
    simp [Env.configureTrace, Env.readEvent, h0]
  · intro _ h0 h1
    simp [Env.configureTrace, Env.homeTrace, Env.readEvent, h0, h1]
  · intro _ h0 h1 _
    simp [Env.configureTrace, Env.homeTrace, Env.readEvent, h0, h1]
  · intro _ h0 h1 _
    simp [Env.configureTrace, Env.homeTrace, Env.readEvent, h0, h1]

/-- C2 witness: Scenario D (status bits 0, disable write ok, homing true, restore write
fails), and the same run with homing false. -/
theorem restore_failure_dominates_witness :
    ((N5HomingMode.executeHoming (scenario true 0 true true false) 6).exit
        = HomingOutcome.RestoreFailed ∧
      (N5HomingMode.executeHoming (scenario true 0 true true false) 6).ret = false) ∧
    ((N5HomingMode.executeHoming (scenario true 0 true false false) 6).exit
        = HomingOutcome.RestoreFailed ∧
      (N5HomingMode.executeHoming (scenario true 0 true false false) 6).ret = false) :=
  ⟨⟨(restore_failure_dominates (scenario true 0 true true false) 6
        (by decide) (by decide)).1,
    (restore_failure_dominates (scenario true 0 true true false) 6
        (by decide) (by decide)).2.1⟩,
   ⟨(restore_failure_dominates (scenario true 0 true false false) 6
        (by decide) (by decide)).1,
    (restore_failure_dominates (scenario true 0 true false false) 6
        (by decide) (by decide)).2.1⟩⟩

/-- C3: whenever the guard-disable write of -1 succeeded, the trace holds exactly one
write of 6 to the limit-guard register and exactly one call of the standard homing
procedure, and the device operations of the run are, in order: the status read, the
disable write, the homing call, the write of 6; so the write of 6 comes after the homing
call and is the last device operation, whatever the homing result. -/
theorem restore_attempted_once_after_homing (env : Env) (reg0 : Int)
    (hd : Event.sdoWrite 0x3701 0 (-1) 100 true ∈ (N5HomingMode.executeHoming env reg0).trace) :
    ((N5HomingMode.executeHoming env reg0).trace.filter (Event.isGuardWrite 6)).length = 1 ∧
    ((N5HomingMode.executeHoming env reg0).trace.filter Event.isHoming).length = 1 ∧
    deviceOps (N5HomingMode.executeHoming env reg0).trace =
      [Event.sdoRead 0x6041 0 100 env.readOk (env.readWord % 2 ^ 16),
       Event.sdoWrite 0x3701 0 (-1) 100 true,
       Event.defaultHoming env.homingOk,
       Event.sdoWrite 0x3701 0 6 100 (env.writeOk 1)] := by
  revert hd
  refine run_cases env reg0 (fun r =>
    Event.sdoWrite 0x3701 0 (-1) 100 true ∈ r.trace →
    (r.trace.filter (Event.isGuardWrite 6)).length = 1 ∧
    (r.trace.filter Event.isHoming).length = 1 ∧
    deviceOps r.trace =
      [Event.sdoRead 0x6041 0 100 env.readOk (env.readWord % 2 ^ 16),
       Event.sdoWrite 0x3701 0 (-1) 100 true,
       Event.defaultHoming env.homingOk,
       Event.sdoWrite 0x3701 0 6 100 (env.writeOk 1)]) ?_ ?_ ?_ ?_ ?_
  · intro _ _
    cases h0 : env.writeOk 0 <;> simp [Env.readEvent]
  · intro _ h0
    simp [Env.configureTrace, Env.readEvent, h0]
  all_goals
    intros
    simp_all [Env.configureTrace, Env.homeTrace, Env.readEvent, Env.word, deviceOps,
      Event.isGuardWrite, Event.isHoming, Event.isDeviceOp, List.filter]

/-- C3 witness: the full path with a failing homing procedure and a failing restore. -/
theorem restore_attempted_once_after_homing_witness :
    deviceOps (N5HomingMode.executeHoming (scenario false 7 true false false) 6).trace =
      [Event.sdoRead 0x6041 0 100 false 7, Event.sdoWrite 0x3701 0 (-1) 100 true,
       Event.defaultHoming false, Event.sdoWrite 0x3701 0 6 100 false] :=
  (restore_attempted_once_after_homing (scenario false 7 true false false) 6 (by decide)).2.2

/-- C4: whenever the guard-disable write of -1 fails, the standard homing procedure is
never called, the failed write is the last device operation (the run consists of the
status read and that write), the run leaves through the pre-configuration branch and
returns false. -/
theorem preconfig_failure_gates_homing (env : Env) (reg0 : Int)
    (hd : Event.sdoWrite 0x3701 0 (-1) 100 false ∈
      (N5HomingMode.executeHoming env reg0).trace) :
    (∀ e ∈ (N5HomingMode.executeHoming env reg0).trace, Event.isHoming e = false) ∧
    deviceOps (N5HomingMode.executeHoming env reg0).trace =
      [Event.sdoRead 0x6041 0 100 env.readOk (env.readWord % 2 ^ 16),
       Event.sdoWrite 0x3701 0 (-1) 100 false] ∧
    (N5HomingMode.executeHoming env reg0).exit = HomingOutcome.PreConfigFailed ∧
    (N5HomingMode.executeHoming env reg0).ret = false := by
  revert hd
  refine run_cases env reg0 (fun r =>
    Event.sdoWrite 0x3701 0 (-1) 100 false ∈ r.trace →
    (∀ e ∈ r.trace, Event.isHoming e = false) ∧
    deviceOps r.trace =
      [Event.sdoRead 0x6041 0 100 env.readOk (env.readWord % 2 ^ 16),
       Event.sdoWrite 0x3701 0 (-1) 100 false] ∧
    r.exit = HomingOutcome.PreConfigFailed ∧ r.ret = false) ?_ ?_ ?_ ?_ ?_
  · intro _ _
    cases h0 : env.writeOk 0 <;> simp [Env.readEvent]
  · intro _ h0
    simp [Env.configureTrace, Env.readEvent, Env.word, deviceOps, Event.isHoming,
      Event.isDeviceOp, List.filter, h0]
  all_goals
    intros
    simp_all [Env.configureTrace, Env.homeTrace, Env.readEvent]

/-- C4 witness: Scenario E (status read times out, disable write fails). -/
theorem preconfig_failure_gates_homing_witness :
    (∀ e ∈ (N5HomingMode.executeHoming (scenario false 0 false true true) 6).trace,
      Event.isHoming e = false) ∧
    (N5HomingMode.executeHoming (scenario false 0 false true true) 6).exit
      = HomingOutcome.PreConfigFailed ∧
    (N5HomingMode.executeHoming (scenario false 0 false true true) 6).ret = false :=
  ⟨(preconfig_failure_gates_homing (scenario false 0 false true true) 6 (by decide)).1,
   (preconfig_failure_gates_homing (scenario false 0 false true true) 6 (by decide)).2.2⟩

/-- C5: whenever the status-word read succeeds with a word whose bits 12 and 10 are both
set, the standard homing procedure is never called, no write of -1 to the limit-guard
register is issued, and the run leaves through the already-homed return. -/
theorem already_homed_skips_homing (env : Env) (reg0 : Int) (w : Nat)
    (hr : Event.sdoRead 0x6041 0 100 true w ∈ (N5HomingMode.executeHoming env reg0).trace)
    (h12 : w.testBit 12 = true) (h10 : w.testBit 10 = true) :
    (∀ e ∈ (N5HomingMode.executeHoming env reg0).trace, Event.isHoming e = false) ∧
    (∀ e ∈ (N5HomingMode.executeHoming env reg0).trace,
      Event.isGuardWrite (-1) e = false) ∧
    (N5HomingMode.executeHoming env reg0).exit = HomingOutcome.AlreadyHomed ∧
    (N5HomingMode.executeHoming env reg0).ret = true := by
  obtain ⟨hok, hw⟩ := read_mem_trace env reg0 _ _ _ _ _ hr
  have hb : homedBits env.word = true := by
    rw [homedBits_eq_testBit, ← hw, h12, h10]; rfl
  have hn : (env.readOk && homedBits env.word) = true := by
    rw [← hok, hb]; rfl
  refine run_cases env reg0 (fun r =>
    (∀ e ∈ r.trace, Event.isHoming e = false) ∧
    (∀ e ∈ r.trace, Event.isGuardWrite (-1) e = false) ∧
    r.exit = HomingOutcome.AlreadyHomed ∧ r.ret = true) ?_ ?_ ?_ ?_ ?_
  · intro _ _
    cases h0 : env.writeOk 0 <;>
      simp [Env.readEvent, Event.isHoming, Event.isGuardWrite]
  all_goals
    intro hn2
    rw [hn] at hn2
    exact absurd hn2 (by decide)

/-- C5 witness: Scenario A (status word 0b0001010000000000, restore write succeeds). -/
theorem already_homed_skips_homing_witness :
    (∀ e ∈ (N5HomingMode.executeHoming (scenario true 0b0001010000000000 true true true)
        (-1)).trace, Event.isHoming e = false) ∧
    (∀ e ∈ (N5HomingMode.executeHoming (scenario true 0b0001010000000000 true true true)
        (-1)).trace, Event.isGuardWrite (-1) e = false) ∧
    (N5HomingMode.executeHoming (scenario true 0b0001010000000000 true true true)
        (-1)).exit = HomingOutcome.AlreadyHomed ∧
    (N5HomingMode.executeHoming (scenario true 0b0001010000000000 true true true)
        (-1)).ret = true :=
  already_homed_skips_homing (scenario true 0b0001010000000000 true true true) (-1)
    0b0001010000000000 (by decide) (by decide) (by decide)

/-- C6 (as stated, refuted): Scenario C ends in HomingFailed, Scenario D ends in
RestoreFailed, and both return the same value to the caller. -/
theorem homingFailed_and_restoreFailed_return_same_value :
    (N5HomingMode.executeHoming (scenario true 0 true false true) 6).exit
      = HomingOutcome.HomingFailed ∧
    (N5HomingMode.executeHoming (scenario true 0 true true false) 6).exit
      = HomingOutcome.RestoreFailed ∧
    (N5HomingMode.executeHoming (scenario true 0 true false true) 6).ret
      = (N5HomingMode.executeHoming (scenario true 0 true true false) 6).ret := by
  decide

/-- C6 (amended): the value returned to the caller is a boolean and is false both for a
run ending in HomingFailed and for a run ending in RestoreFailed; the two endings are
told apart on the console only: the HomingFailed run prints the homing-failed line and
not the restore-failure error, the RestoreFailed run prints the restore-failure error
and not the homing-failed line. -/
theorem failure_kinds_differ_only_on_console (env₁ env₂ : Env) (reg₁ reg₂ : Int)
    (h₁ : (N5HomingMode.executeHoming env₁ reg₁).exit = HomingOutcome.HomingFailed)
    (h₂ : (N5HomingMode.executeHoming env₂ reg₂).exit = HomingOutcome.RestoreFailed) :
    (N5HomingMode.executeHoming env₁ reg₁).ret = false ∧
    (N5HomingMode.executeHoming env₂ reg₂).ret = false ∧
    Event.cout Msg.homingFailed ∈ (N5HomingMode.executeHoming env₁ reg₁).trace ∧
    Event.cout Msg.restoreFailed ∉ (N5HomingMode.executeHoming env₁ reg₁).trace ∧
    Event.cout Msg.restoreFailed ∈ (N5HomingMode.executeHoming env₂ reg₂).trace ∧
    Event.cout Msg.homingFailed ∉ (N5HomingMode.executeHoming env₂ reg₂).trace := by
  have a : (N5HomingMode.executeHoming env₁ reg₁).ret = false ∧
      Event.cout Msg.homingFailed ∈ (N5HomingMode.executeHoming env₁ reg₁).trace ∧
      Event.cout Msg.restoreFailed ∉ (N5HomingMode.executeHoming env₁ reg₁).trace := by
    revert h₁
    refine run_cases env₁ reg₁ (fun r => r.exit = HomingOutcome.HomingFailed →
      r.ret = false ∧ Event.cout Msg.homingFailed ∈ r.trace ∧
      Event.cout Msg.restoreFailed ∉ r.trace) ?_ ?_ ?_ ?_ ?_ <;>
    · intros
      simp_all [Env.configureTrace, Env.homeTrace, Env.readEvent]
  have b : (N5HomingMode.executeHoming env₂ reg₂).ret = false ∧
      Event.cout Msg.restoreFailed ∈ (N5HomingMode.executeHoming env₂ reg₂).trace ∧
      Event.cout Msg.homingFailed ∉ (N5HomingMode.executeHoming env₂ reg₂).trace := by
    revert h₂
    refine run_cases env₂ reg₂ (fun r => r.exit = HomingOutcome.RestoreFailed →
      r.ret = false ∧ Event.cout Msg.restoreFailed ∈ r.trace ∧
      Event.cout Msg.homingFailed ∉ r.trace) ?_ ?_ ?_ ?_ ?_ <;>
    · intros
      simp_all [Env.configureTrace, Env.homeTrace, Env.readEvent]
  exact ⟨a.1, b.1, a.2.1, a.2.2, b.2.1, b.2.2⟩

/-- C6 witness: Scenario C against Scenario D. -/
theorem failure_kinds_differ_only_on_console_witness :
    (N5HomingMode.executeHoming (scenario true 0 true false true) 6).ret = false ∧
    (N5HomingMode.executeHoming (scenario true 0 true true false) 6).ret = false :=
  ⟨(failure_kinds_differ_only_on_console (scenario true 0 true false true)
      (scenario true 0 true true false) 6 6 (by decide) (by decide)).1,
   (failure_kinds_differ_only_on_console (scenario true 0 true false true)
      (scenario true 0 true true false) 6 6 (by decide) (by decide)).2.1⟩

/-- C7 (as stated, refuted): Scenario A returns true although the standard homing
sequence was never executed, and Scenario D returns false although the standard homing
sequence was executed and reported success. -/
theorem return_value_is_not_homing_success :
    ((N5HomingMode.executeHoming (scenario true 0x1400 true true true) 6).ret = true ∧
      ∀ e ∈ (N5HomingMode.executeHoming (scenario true 0x1400 true true true) 6).trace,
        Event.isHoming e = false) ∧
    ((N5HomingMode.executeHoming (scenario true 0 true true false) 6).ret = false ∧
      Event.defaultHoming true ∈
        (N5HomingMode.executeHoming (scenario true 0 true true false) 6).trace) := by
  decide

/-- C7 (amended): executeHoming returns true exactly when it left through the
already-homed return (no homing executed), or the standard homing sequence was executed
and reported success and the write of 6 that follows it succeeded; it returns false
otherwise. -/
theorem return_value_characterised (env : Env) (reg0 : Int) :
    ((N5HomingMode.executeHoming env reg0).ret = true ↔
      ((N5HomingMode.executeHoming env reg0).exit = HomingOutcome.AlreadyHomed ∧
        ∀ e ∈ (N5HomingMode.executeHoming env reg0).trace, Event.isHoming e = false) ∨
      (Event.defaultHoming true ∈ (N5HomingMode.executeHoming env reg0).trace ∧
        Event.sdoWrite 0x3701 0 6 100 true ∈ (N5HomingMode.executeHoming env reg0).trace))
    := by
  refine run_cases env reg0 (fun r => (r.ret = true ↔
    (r.exit = HomingOutcome.AlreadyHomed ∧ ∀ e ∈ r.trace, Event.isHoming e = false) ∨
    (Event.defaultHoming true ∈ r.trace ∧
      Event.sdoWrite 0x3701 0 6 100 true ∈ r.trace))) ?_ ?_ ?_ ?_ ?_
  · intro _ _
    cases h0 : env.writeOk 0 <;> simp [Env.readEvent, Event.isHoming]
  all_goals
    intros
    simp_all [Env.configureTrace, Env.homeTrace, Env.readEvent]

/-- C8: after a successful status read of the 16-bit word w, the run takes the
already-homed path exactly when bits 12 and 10 of w are both set, that is when
w AND 0x1400 = 0x1400; otherwise its next device operation is the guard-disable write
of -1. The decision depends on w alone: not on the register, nor on the other answers. -/
theorem already_homed_iff_both_bits (env : Env) (reg0 : Int) (hr : env.readOk = true) :
    ((N5HomingMode.executeHoming env reg0).exit = HomingOutcome.AlreadyHomed ↔
      ((env.readWord % 2 ^ 16).testBit 12 = true ∧
        (env.readWord % 2 ^ 16).testBit 10 = true)) ∧
    ((N5HomingMode.executeHoming env reg0).exit = HomingOutcome.AlreadyHomed ↔
      (env.readWord % 2 ^ 16) &&& 0x1400 = 0x1400) ∧
    ((N5HomingMode.executeHoming env reg0).exit ≠ HomingOutcome.AlreadyHomed →
      (deviceOps (N5HomingMode.executeHoming env reg0).trace)[1]? =
        some (Event.sdoWrite 0x3701 0 (-1) 100 (env.writeOk 0))) := by
  rw [mask_eq_iff_testBit]
  have key : (N5HomingMode.executeHoming env reg0).exit = HomingOutcome.AlreadyHomed ↔
      ((env.readWord % 2 ^ 16).testBit 12 = true ∧
        (env.readWord % 2 ^ 16).testBit 10 = true) := by
    refine run_cases env reg0 (fun r => (r.exit = HomingOutcome.AlreadyHomed ↔
      ((env.readWord % 2 ^ 16).testBit 12 = true ∧
        (env.readWord % 2 ^ 16).testBit 10 = true))) ?_ ?_ ?_ ?_ ?_
    · intro _ hb
      rw [homedBits_eq_testBit] at hb
      simpa [Env.word] using hb
    all_goals
      intro hn
      intros
      rw [hr, homedBits_eq_testBit] at hn
      simpa [Env.word] using hn
  refine ⟨key, key, ?_⟩
  refine run_cases env reg0 (fun r => (r.exit ≠ HomingOutcome.AlreadyHomed →
    (deviceOps r.trace)[1]? =
      some (Event.sdoWrite 0x3701 0 (-1) 100 (env.writeOk 0)))) ?_ ?_ ?_ ?_ ?_
  · intro _ _
    simp
  all_goals
    intros
    simp [Env.configureTrace, Env.homeTrace, Env.readEvent, deviceOps, Event.isDeviceOp,
      List.filter]

/-- C8 witness: a word with only bit 12 set (0x1000) and a word with only bit 10 set
(0x0400) do not take the already-homed path, the word 0x1400 does. -/
theorem already_homed_iff_both_bits_witness :
    (N5HomingMode.executeHoming (scenario true 0x1000 true true true) 6).exit
      ≠ HomingOutcome.AlreadyHomed ∧
    (N5HomingMode.executeHoming (scenario true 0x0400 true true true) 6).exit
      ≠ HomingOutcome.AlreadyHomed ∧
    (N5HomingMode.executeHoming (scenario true 0x1400 true true true) 6).exit
      = HomingOutcome.AlreadyHomed :=
  ⟨fun h => absurd
      (((already_homed_iff_both_bits (scenario true 0x1000 true true true) 6 rfl).2.1).mp h)
      (by decide),
   fun h => absurd
      (((already_homed_iff_both_bits (scenario true 0x0400 true true true) 6 rfl).2.1).mp h)
      (by decide),
   ((already_homed_iff_both_bits (scenario true 0x1400 true true true) 6 rfl).2.1).mpr
      (by decide)⟩

/-- C9: a run whose status-word read fails, whatever the status-word variable holds,
behaves as the run that differs only in reading successfully a word w that is not
homed (bits 12 and 10 not both set): apart from the read event itself the two traces
are equal, and so are the returned value, the return taken and the final register; the
first operation after the read is the guard-disable write of -1. -/
theorem read_failure_falls_back (env : Env) (reg0 : Int) (w : Nat)
    (hr : env.readOk = false)
    (hw : ¬ ((w % 2 ^ 16).testBit 12 = true ∧ (w % 2 ^ 16).testBit 10 = true)) :
    (N5HomingMode.executeHoming env reg0).ret =
      (N5HomingMode.executeHoming { env with readOk := true, readWord := w } reg0).ret ∧
    (N5HomingMode.executeHoming env reg0).exit =
      (N5HomingMode.executeHoming { env with readOk := true, readWord := w } reg0).exit ∧
    (N5HomingMode.executeHoming env reg0).limitGuard =
      (N5HomingMode.executeHoming { env with readOk := true, readWord := w }
        reg0).limitGuard ∧
    (N5HomingMode.executeHoming env reg0).trace.tail =
      (N5HomingMode.executeHoming { env with readOk := true, readWord := w }
        reg0).trace.tail ∧
    (N5HomingMode.executeHoming env reg0).trace.head? =
      some (Event.sdoRead 0x6041 0 100 false (env.readWord % 2 ^ 16)) ∧
    (deviceOps (N5HomingMode.executeHoming env reg0).trace)[1]? =
      some (Event.sdoWrite 0x3701 0 (-1) 100 (env.writeOk 0)) := by
  have hn : (env.readOk && homedBits env.word) = false := by simp [hr]
  have hn2 : (({ env with readOk := true, readWord := w } : Env).readOk &&
      homedBits ({ env with readOk := true, readWord := w } : Env).word) = false := by
    rw [homedBits_eq_testBit]
    simp only [Env.word, Bool.true_and]
    cases h12 : (w % 2 ^ 16).testBit 12 <;> cases h10 : (w % 2 ^ 16).testBit 10 <;>
      simp_all
  cases h0 : env.writeOk 0
  · rw [run_preConfigFailed env reg0 hn h0, run_preConfigFailed _ reg0 hn2 h0]
    simp [Env.configureTrace, Env.readEvent, Env.word, deviceOps, Event.isDeviceOp,
      List.filter, hr, h0]
  · cases h1 : env.writeOk 1
    · rw [run_restoreFailed env reg0 hn h0 h1, run_restoreFailed _ reg0 hn2 h0 h1]
      simp [Env.configureTrace, Env.homeTrace, Env.readEvent, Env.word, deviceOps,
        Event.isDeviceOp, List.filter, hr, h0, h1]
    · obtain hh | hh := Bool.eq_false_or_eq_true env.homingOk
      · rw [run_completed env reg0 hn h0 h1 hh, run_completed _ reg0 hn2 h0 h1 hh]
        simp [Env.configureTrace, Env.homeTrace, Env.readEvent, Env.word, deviceOps,
          Event.isDeviceOp, List.filter, hr, h0, h1, hh]
      · rw [run_homingFailed env reg0 hn h0 h1 hh, run_homingFailed _ reg0 hn2 h0 h1 hh]
        simp [Env.configureTrace, Env.homeTrace, Env.readEvent, Env.word, deviceOps,
          Event.isDeviceOp, List.filter, hr, h0, h1, hh]

/-- C9 witness: a failed read that left 0x1400 in the variable, against a successful
read of 0. -/
theorem read_failure_falls_back_witness :
    (N5HomingMode.executeHoming (scenario false 0x1400 true true true) 0).ret =
      (N5HomingMode.executeHoming (scenario true 0 true true true) 0).ret ∧
    (N5HomingMode.executeHoming (scenario false 0x1400 true true true) 0).exit =
      (N5HomingMode.executeHoming (scenario true 0 true true true) 0).exit :=
  ⟨(read_failure_falls_back (scenario false 0x1400 true true true) 0 0 rfl (by decide)).1,
   (read_failure_falls_back (scenario false 0x1400 true true true) 0 0 rfl
      (by decide)).2.1⟩

/-- C10: whenever the guard-disable write and the restore write both succeeded, the
standard homing procedure was called, and the run is Completed and returns true if the
procedure returned true, HomingFailed and returns false if it returned false. -/
theorem full_path_outcomes (env : Env) (reg0 : Int)
    (hd : Event.sdoWrite 0x3701 0 (-1) 100 true ∈ (N5HomingMode.executeHoming env reg0).trace)
    (hs : Event.sdoWrite 0x3701 0 6 100 true ∈ (N5HomingMode.executeHoming env reg0).trace) :
    Event.defaultHoming env.homingOk ∈ (N5HomingMode.executeHoming env reg0).trace ∧
    (Event.defaultHoming true ∈ (N5HomingMode.executeHoming env reg0).trace →
      (N5HomingMode.executeHoming env reg0).exit = HomingOutcome.Completed ∧
      (N5HomingMode.executeHoming env reg0).ret = true) ∧
    (Event.defaultHoming false ∈ (N5HomingMode.executeHoming env reg0).trace →
      (N5HomingMode.executeHoming env reg0).exit = HomingOutcome.HomingFailed ∧
      (N5HomingMode.executeHoming env reg0).ret = false) := by
  revert hd hs
  refine run_cases env reg0 (fun r =>
    Event.sdoWrite 0x3701 0 (-1) 100 true ∈ r.trace →
    Event.sdoWrite 0x3701 0 6 100 true ∈ r.trace →
    Event.defaultHoming env.homingOk ∈ r.trace ∧
    (Event.defaultHoming true ∈ r.trace →
      r.exit = HomingOutcome.Completed ∧ r.ret = true) ∧
    (Event.defaultHoming false ∈ r.trace →
      r.exit = HomingOutcome.HomingFailed ∧ r.ret = false)) ?_ ?_ ?_ ?_ ?_
  · intro _ _
    cases h0 : env.writeOk 0 <;> simp [Env.readEvent]
  all_goals
    intros
    simp_all [Env.configureTrace, Env.homeTrace, Env.readEvent]

/-- C10 witness: Scenario B (homing true, Completed) and Scenario C (homing false,
HomingFailed). -/
theorem full_path_outcomes_witness :
    ((N5HomingMode.executeHoming (scenario true 0 true true true) 6).exit
        = HomingOutcome.Completed ∧
      (N5HomingMode.executeHoming (scenario true 0 true true true) 6).ret = true) ∧
    ((N5HomingMode.executeHoming (scenario true 0 true false true) 6).exit
        = HomingOutcome.HomingFailed ∧
      (N5HomingMode.executeHoming (scenario true 0 true false true) 6).ret = false) :=
  ⟨(full_path_outcomes (scenario true 0 true true true) 6 (by decide) (by decide)).2.1
      (by decide),
   (full_path_outcomes (scenario true 0 true false true) 6 (by decide) (by decide)).2.2
      (by decide)⟩

/-- C11: on the already-homed path (a successful status read of a word with bits 12 and
10 set) the run issues exactly one write of 6 to the limit-guard register, as its last
device operation right after the read, and leaves through the already-homed return
with true, whatever the result of that write. -/
theorem already_homed_restores_once (env : Env) (reg0 : Int) (w : Nat)
    (hr : Event.sdoRead 0x6041 0 100 true w ∈ (N5HomingMode.executeHoming env reg0).trace)
    (h12 : w.testBit 12 = true) (h10 : w.testBit 10 = true) :
    ((N5HomingMode.executeHoming env reg0).trace.filter (Event.isGuardWrite 6)).length = 1 ∧
    ((N5HomingMode.executeHoming env reg0).trace.filter Event.isWrite).length = 1 ∧
    deviceOps (N5HomingMode.executeHoming env reg0).trace =
      [Event.sdoRead 0x6041 0 100 true w, Event.sdoWrite 0x3701 0 6 100 (env.writeOk 0)] ∧
    (N5HomingMode.executeHoming env reg0).exit = HomingOutcome.AlreadyHomed ∧
    (N5HomingMode.executeHoming env reg0).ret = true := by
  obtain ⟨hok, hw⟩ := read_mem_trace env reg0 _ _ _ _ _ hr
  have hb : homedBits env.word = true := by
    rw [homedBits_eq_testBit, ← hw, h12, h10]; rfl
  have hn : (env.readOk && homedBits env.word) = true := by
    rw [← hok, hb]; rfl
  refine run_cases env reg0 (fun r =>
    (r.trace.filter (Event.isGuardWrite 6)).length = 1 ∧
    (r.trace.filter Event.isWrite).length = 1 ∧
    deviceOps r.trace =
      [Event.sdoRead 0x6041 0 100 true w, Event.sdoWrite 0x3701 0 6 100 (env.writeOk 0)] ∧
    r.exit = HomingOutcome.AlreadyHomed ∧ r.ret = true) ?_ ?_ ?_ ?_ ?_
  · intro _ _
    cases h0 : env.writeOk 0 <;>
      simp [Env.readEvent, Event.isGuardWrite, Event.isWrite, deviceOps, Event.isDeviceOp,
        List.filter, ← hok, ← hw]
  all_goals
    intro hn2
    rw [hn] at hn2
    exact absurd hn2 (by decide)

/-- C11 witness: Scenario A with the write of 6 succeeding, and with it failing. -/
theorem already_homed_restores_once_witness :
    ((N5HomingMode.executeHoming (scenario true 0x1400 true true true) (-1)).ret = true ∧
      (N5HomingMode.executeHoming (scenario true 0x1400 true true true) (-1)).limitGuard
        = 6) ∧
    ((N5HomingMode.executeHoming (scenario true 0x1400 false true true) (-1)).ret = true ∧
      (N5HomingMode.executeHoming (scenario true 0x1400 false true true) (-1)).limitGuard
        = -1) :=
  ⟨⟨(already_homed_restores_once (scenario true 0x1400 true true true) (-1) 0x1400
        (by decide) (by decide) (by decide)).2.2.2.2, by decide⟩,
   ⟨(already_homed_restores_once (scenario true 0x1400 false true true) (-1) 0x1400
        (by decide) (by decide) (by decide)).2.2.2.2, by decide⟩⟩

/-- C12: in every run, every register write targets index 0x3701, subindex 0, with
timeout 100 ms and value -1 or 6, both within the signed 16-bit range; every read
targets index 0x6041, subindex 0, with timeout 100 ms; a write of -1 occurs only as
the operation right after the read (the pre-homing write, the homing call not yet
made) and a write of 6 only as the last device operation (a restore write). -/
theorem fixed_addresses_values_timeout (env : Env) (reg0 : Int) :
    (∀ i s v t ok, Event.sdoWrite i s v t ok ∈ (N5HomingMode.executeHoming env reg0).trace →
      i = 0x3701 ∧ s = 0 ∧ t = 100 ∧ (v = -1 ∨ v = 6) ∧ -2 ^ 15 ≤ v ∧ v < 2 ^ 15) ∧
    (∀ i s t ok w, Event.sdoRead i s t ok w ∈ (N5HomingMode.executeHoming env reg0).trace →
      i = 0x6041 ∧ s = 0 ∧ t = 100) ∧
    (∀ i s t ok, Event.sdoWrite i s (-1) t ok ∈ (N5HomingMode.executeHoming env reg0).trace →
      (deviceOps (N5HomingMode.executeHoming env reg0).trace).take 2 =
        [Event.sdoRead 0x6041 0 100 env.readOk (env.readWord % 2 ^ 16),
         Event.sdoWrite i s (-1) t ok]) ∧
    (∀ i s t ok, Event.sdoWrite i s 6 t ok ∈ (N5HomingMode.executeHoming env reg0).trace →
      (deviceOps (N5HomingMode.executeHoming env reg0).trace).getLast? =
        some (Event.sdoWrite i s 6 t ok)) := by
  refine ⟨?_, ?_, ?_, ?_⟩
  · intro i s v t ok
    refine run_cases env reg0 (fun r => Event.sdoWrite i s v t ok ∈ r.trace →
      i = 0x3701 ∧ s = 0 ∧ t = 100 ∧ (v = -1 ∨ v = 6) ∧ -2 ^ 15 ≤ v ∧ v < 2 ^ 15)
      ?_ ?_ ?_ ?_ ?_
    · intro _ _ h
      have h2 : i = 0x3701 ∧ s = 0 ∧ v = 6 ∧ t = 100 := by
        cases h0 : env.writeOk 0 <;> simp [h0, Env.readEvent] at h <;> omega
      omega
    all_goals
      intros
      beta_reduce
      intro h
      simp [Env.configureTrace, Env.homeTrace, Env.readEvent] at h
      omega
  · intro i s t ok w
    refine run_cases env reg0 (fun r => Event.sdoRead i s t ok w ∈ r.trace →
      i = 0x6041 ∧ s = 0 ∧ t = 100) ?_ ?_ ?_ ?_ ?_
    · intro _ _ h
      cases h0 : env.writeOk 0 <;> simp [h0, Env.readEvent] at h <;> omega
    all_goals
      intros
      beta_reduce
      intro h
      simp [Env.configureTrace, Env.homeTrace, Env.readEvent] at h
      omega
  · intro i s t ok
    refine run_cases env reg0 (fun r => Event.sdoWrite i s (-1) t ok ∈ r.trace →
      (deviceOps r.trace).take 2 =
        [Event.sdoRead 0x6041 0 100 env.readOk (env.readWord % 2 ^ 16),
         Event.sdoWrite i s (-1) t ok]) ?_ ?_ ?_ ?_ ?_
    · intro _ _ h
      cases h0 : env.writeOk 0 <;> simp [h0, Env.readEvent] at h
    all_goals
      intros
      beta_reduce
      intro h
      simp [Env.configureTrace, Env.homeTrace, Env.readEvent] at h
      obtain ⟨rfl, rfl, rfl, rfl⟩ := h
      simp [Env.configureTrace, Env.homeTrace, Env.readEvent, Env.word, deviceOps,
        Event.isDeviceOp, List.filter]
  · intro i s t ok
    refine run_cases env reg0 (fun r => Event.sdoWrite i s 6 t ok ∈ r.trace →
      (deviceOps r.trace).getLast? = some (Event.sdoWrite i s 6 t ok)) ?_ ?_ ?_ ?_ ?_
    · intro _ _ h
      have h2 : i = 0x3701 ∧ s = 0 ∧ t = 100 ∧ ok = env.writeOk 0 := by
        cases h0 : env.writeOk 0 <;> simp [h0, Env.readEvent] at h <;> simp [h]
      obtain ⟨rfl, rfl, rfl, rfl⟩ := h2
      cases h0 : env.writeOk 0 <;>
        simp [Env.readEvent, deviceOps, Event.isDeviceOp, List.filter]
    · intro _ _ h
      simp [Env.configureTrace, Env.homeTrace, Env.readEvent] at h
    all_goals
      intros
      beta_reduce
      intro h
      simp [Env.configureTrace, Env.homeTrace, Env.readEvent] at h
      obtain ⟨rfl, rfl, rfl, rfl⟩ := h
      simp [Env.configureTrace, Env.homeTrace, Env.readEvent, Env.word, deviceOps,
        Event.isDeviceOp, List.filter]

/-- C12 witness: on the full path the write of -1 is the operation right after the
read and the write of 6 is the last device operation. -/
theorem fixed_addresses_values_timeout_witness :
    (deviceOps (N5HomingMode.executeHoming (scenario true 0 true true true) 6).trace).take 2 =
      [Event.sdoRead 0x6041 0 100 true 0, Event.sdoWrite 0x3701 0 (-1) 100 true] ∧
    (deviceOps (N5HomingMode.executeHoming (scenario true 0 true true true) 6).trace).getLast? =
      some (Event.sdoWrite 0x3701 0 6 100 true) :=
  ⟨(fixed_addresses_values_timeout (scenario true 0 true true true) 6).2.2.1
      0x3701 0 100 true (by decide),
   (fixed_addresses_values_timeout (scenario true 0 true true true) 6).2.2.2
      0x3701 0 100 true (by decide)⟩

/-- C13: every run issues exactly one register read, as its very first event, at most
two register writes, hence at most four register operations (one read plus the writes),
and at most one call of the standard homing procedure; a write that failed is the last
device operation of the run, so nothing is retried. -/
theorem bounded_operations_no_retries (env : Env) (reg0 : Int) :
    ((N5HomingMode.executeHoming env reg0).trace.filter Event.isRead).length = 1 ∧
    (N5HomingMode.executeHoming env reg0).trace.head? =
      some (Event.sdoRead 0x6041 0 100 env.readOk (env.readWord % 2 ^ 16)) ∧
    ((N5HomingMode.executeHoming env reg0).trace.filter Event.isWrite).length ≤ 2 ∧
    (registerOps (N5HomingMode.executeHoming env reg0).trace).length =
      1 + ((N5HomingMode.executeHoming env reg0).trace.filter Event.isWrite).length ∧
    (registerOps (N5HomingMode.executeHoming env reg0).trace).length ≤ 4 ∧
    ((N5HomingMode.executeHoming env reg0).trace.filter Event.isHoming).length ≤ 1 ∧
    (∀ i s v t, Event.sdoWrite i s v t false ∈ (N5HomingMode.executeHoming env reg0).trace →
      (deviceOps (N5HomingMode.executeHoming env reg0).trace).getLast? =
        some (Event.sdoWrite i s v t false)) := by
  refine ⟨?_, ?_, ?_, ?_, ?_, ?_, ?_⟩
  · refine run_cases env reg0 (fun r => (r.trace.filter Event.isRead).length = 1)
      ?_ ?_ ?_ ?_ ?_
    · intro _ _
      cases h0 : env.writeOk 0 <;> simp [Env.readEvent, Event.isRead, List.filter]
    all_goals
      intros
      simp [Env.configureTrace, Env.homeTrace, Env.readEvent, Event.isRead, List.filter]
  · refine run_cases env reg0 (fun r => r.trace.head? =
      some (Event.sdoRead 0x6041 0 100 env.readOk (env.readWord % 2 ^ 16))) ?_ ?_ ?_ ?_ ?_
    · intro _ _
      simp [Env.readEvent, Env.word]
    all_goals
      intros
      simp [Env.configureTrace, Env.homeTrace, Env.readEvent, Env.word]
  · refine run_cases env reg0 (fun r => (r.trace.filter Event.isWrite).length ≤ 2)
      ?_ ?_ ?_ ?_ ?_
    · intro _ _
      cases h0 : env.writeOk 0 <;> simp [Env.readEvent, Event.isWrite, List.filter]
    all_goals
      intros
      simp [Env.configureTrace, Env.homeTrace, Env.readEvent, Event.isWrite, List.filter]
  · refine run_cases env reg0 (fun r => (registerOps r.trace).length =
      1 + (r.trace.filter Event.isWrite).length) ?_ ?_ ?_ ?_ ?_
    · intro _ _
      cases h0 : env.writeOk 0 <;>
        simp [Env.readEvent, Event.isWrite, registerOps, Event.isRegisterOp, List.filter]
    all_goals
      intros
      simp [Env.configureTrace, Env.homeTrace, Env.readEvent, Event.isWrite, registerOps,
        Event.isRegisterOp, List.filter]
  · refine run_cases env reg0 (fun r => (registerOps r.trace).length ≤ 4) ?_ ?_ ?_ ?_ ?_
    · intro _ _
      cases h0 : env.writeOk 0 <;>
        simp [Env.readEvent, registerOps, Event.isRegisterOp, List.filter]
    all_goals
      intros
      simp [Env.configureTrace, Env.homeTrace, Env.readEvent, registerOps,
        Event.isRegisterOp, List.filter]
  · refine run_cases env reg0 (fun r => (r.trace.filter Event.isHoming).length ≤ 1)
      ?_ ?_ ?_ ?_ ?_
    · intro _ _
      cases h0 : env.writeOk 0 <;> simp [Env.readEvent, Event.isHoming, List.filter]
    all_goals
      intros
      simp [Env.configureTrace, Env.homeTrace, Env.readEvent, Event.isHoming, List.filter]
  · intro i s v t
    refine run_cases env reg0 (fun r => Event.sdoWrite i s v t false ∈ r.trace →
      (deviceOps r.trace).getLast? = some (Event.sdoWrite i s v t false)) ?_ ?_ ?_ ?_ ?_
    · intro _ _ h
      cases h0 : env.writeOk 0
      · simp [h0, Env.readEvent] at h
        obtain ⟨rfl, rfl, rfl, rfl⟩ := h
        simp [h0, Env.readEvent, deviceOps, Event.isDeviceOp, List.filter]
      · simp [h0, Env.readEvent] at h
    · intro _ h0 h
      simp [Env.configureTrace, Env.readEvent, h0] at h
      obtain ⟨rfl, rfl, rfl, rfl⟩ := h
      simp [Env.configureTrace, Env.readEvent, h0, deviceOps, Event.isDeviceOp, List.filter]
    · intro _ h0 h1 h
      simp [Env.configureTrace, Env.homeTrace, Env.readEvent, h0, h1] at h
      obtain ⟨rfl, rfl, rfl, rfl⟩ := h
      simp [Env.configureTrace, Env.homeTrace, Env.readEvent, h0, h1, deviceOps,
        Event.isDeviceOp, List.filter]
    · intro _ h0 h1 _ h
      simp [Env.configureTrace, Env.homeTrace, Env.readEvent, h0, h1] at h
    · intro _ h0 h1 _ h
      simp [Env.configureTrace, Env.homeTrace, Env.readEvent, h0, h1] at h

/-- C13 witness: in Scenario D the failed write of 6 is the last device operation, and
in Scenario E the failed write of -1 is. -/
theorem bounded_operations_no_retries_witness :
    (deviceOps (N5HomingMode.executeHoming (scenario true 0 true true false) 6).trace).getLast?
      = some (Event.sdoWrite 0x3701 0 6 100 false) ∧
    (deviceOps (N5HomingMode.executeHoming (scenario false 0 false true true) 6).trace).getLast?
      = some (Event.sdoWrite 0x3701 0 (-1) 100 false) :=
  ⟨(bounded_operations_no_retries (scenario true 0 true true false) 6).2.2.2.2.2.2
      0x3701 0 6 100 (by decide),
   (bounded_operations_no_retries (scenario false 0 false true true) 6).2.2.2.2.2.2
      0x3701 0 (-1) 100 (by decide)⟩

/-- C14: let d be the result of the guard-disable write and s the result of the restore
write of a run (each any value when that write was not issued). Then the run returns
true iff the status read succeeded with bits 12 and 10 of the word both set, or d, the
homing result and s are all true. In particular, with a successful read of a homed word
the run returns true whatever the writes answer. -/
theorem return_value_exact (env : Env) (reg0 : Int) (d s : Bool)
    (hd : ∀ ok, Event.sdoWrite 0x3701 0 (-1) 100 ok ∈
      (N5HomingMode.executeHoming env reg0).trace → ok = d)
    (hs : ∀ ok, Event.sdoWrite 0x3701 0 6 100 ok ∈
      (N5HomingMode.executeHoming env reg0).trace → ok = s) :
    ((N5HomingMode.executeHoming env reg0).ret = true ↔
      (env.readOk = true ∧ (env.readWord % 2 ^ 16).testBit 12 = true ∧
        (env.readWord % 2 ^ 16).testBit 10 = true) ∨
      (d = true ∧ env.homingOk = true ∧ s = true)) ∧
    ((env.readOk = true ∧ (env.readWord % 2 ^ 16).testBit 12 = true ∧
        (env.readWord % 2 ^ 16).testBit 10 = true) →
      ∀ f : Nat → Bool,
        (N5HomingMode.executeHoming { env with writeOk := f } reg0).ret = true) := by
  constructor
  · revert hd hs
    refine run_cases env reg0 (fun r =>
      (∀ ok, Event.sdoWrite 0x3701 0 (-1) 100 ok ∈ r.trace → ok = d) →
      (∀ ok, Event.sdoWrite 0x3701 0 6 100 ok ∈ r.trace → ok = s) →
      (r.ret = true ↔
        (env.readOk = true ∧ (env.readWord % 2 ^ 16).testBit 12 = true ∧
          (env.readWord % 2 ^ 16).testBit 10 = true) ∨
        (d = true ∧ env.homingOk = true ∧ s = true))) ?_ ?_ ?_ ?_ ?_
    · intro hr hb _ _
      rw [homedBits_eq_testBit] at hb
      simp only [Env.word, Bool.and_eq_true] at hb
      beta_reduce
      exact iff_of_true rfl (Or.inl ⟨hr, hb.1, hb.2⟩)
    · intro hn h0 hd _
      have hd0 : env.writeOk 0 = d := hd _ (by simp [Env.configureTrace])
      rw [homedBits_eq_testBit] at hn
      simp only [Env.word] at hn
      have : d = false := by rw [← hd0, h0]
      cases hr : env.readOk <;> simp_all
    · intro hn h0 h1 _ hs
      have hs1 : env.writeOk 1 = s := hs _ (by simp [Env.configureTrace, Env.homeTrace])
      rw [homedBits_eq_testBit] at hn
      simp only [Env.word] at hn
      have : s = false := by rw [← hs1, h1]
      cases hr : env.readOk <;> simp_all
    · intro hn h0 h1 hh _ _
      rw [homedBits_eq_testBit] at hn
      simp only [Env.word] at hn
      cases hr : env.readOk <;> simp_all
    · intro hn h0 h1 hh hd hs
      have hd0 : env.writeOk 0 = d := hd _ (by simp [Env.configureTrace])
      have hs1 : env.writeOk 1 = s := hs _ (by simp [Env.configureTrace, Env.homeTrace])
      have hdt : d = true := by rw [← hd0, h0]
      have hst : s = true := by rw [← hs1, h1]
      simp [hdt, hst, hh]
  · rintro ⟨hr, h12, h10⟩ f
    have hb : homedBits ({ env with writeOk := f } : Env).word = true := by
      rw [homedBits_eq_testBit]
      simp only [Env.word, h12, h10]
      rfl
    rw [run_alreadyHomed { env with writeOk := f } reg0 hr hb]

/-- C14 witness: the already-homed run returns true with the restore write succeeding
and with it failing; the full path returns true when all three results are true, false
when the restore write fails. -/
theorem return_value_exact_witness :
    (N5HomingMode.executeHoming (scenario true 0x1400 true false true) 6).ret = true ∧
    (N5HomingMode.executeHoming (scenario true 0x1400 false false false) 6).ret = true ∧
    (N5HomingMode.executeHoming (scenario true 0 true true true) 6).ret = true ∧
    ¬ (N5HomingMode.executeHoming (scenario true 0 true true false) 6).ret = true :=
  ⟨((return_value_exact (scenario true 0x1400 true false true) 6 false true
        (by decide) (by decide)).1).mpr (by decide),
   ((return_value_exact (scenario true 0x1400 false false false) 6 true false
        (by decide) (by decide)).1).mpr (by decide),
   ((return_value_exact (scenario true 0 true true true) 6 true true
        (by decide) (by decide)).1).mpr (by decide),
   fun h => absurd
     (((return_value_exact (scenario true 0 true true false) 6 true false
        (by decide) (by decide)).1).mp h) (by decide)⟩

/-- C15: in the register model, a run whose own write of -1 succeeded and which returns
true ends with 6 in the limit-guard register; and a run that returns true with another
final register value went through the already-homed return with a failed write of 6
and never wrote -1. -/
theorem success_never_leaves_guard_disabled (env : Env) (reg0 : Int) :
    (Event.sdoWrite 0x3701 0 (-1) 100 true ∈ (N5HomingMode.executeHoming env reg0).trace →
      (N5HomingMode.executeHoming env reg0).ret = true →
      (N5HomingMode.executeHoming env reg0).limitGuard = 6) ∧
    ((N5HomingMode.executeHoming env reg0).ret = true →
      (N5HomingMode.executeHoming env reg0).limitGuard ≠ 6 →
      (N5HomingMode.executeHoming env reg0).exit = HomingOutcome.AlreadyHomed ∧
      Event.sdoWrite 0x3701 0 6 100 false ∈ (N5HomingMode.executeHoming env reg0).trace ∧
      (∀ e ∈ (N5HomingMode.executeHoming env reg0).trace,
        Event.isGuardWrite (-1) e = false) ∧
      (N5HomingMode.executeHoming env reg0).limitGuard = reg0) := by
  refine run_cases env reg0 (fun r =>
    (Event.sdoWrite 0x3701 0 (-1) 100 true ∈ r.trace → r.ret = true → r.limitGuard = 6) ∧
    (r.ret = true → r.limitGuard ≠ 6 →
      r.exit = HomingOutcome.AlreadyHomed ∧
      Event.sdoWrite 0x3701 0 6 100 false ∈ r.trace ∧
      (∀ e ∈ r.trace, Event.isGuardWrite (-1) e = false) ∧
      r.limitGuard = reg0)) ?_ ?_ ?_ ?_ ?_
  · intro _ _
    cases h0 : env.writeOk 0 <;> simp [Env.readEvent, Event.isGuardWrite]
  all_goals
    intros
    simp [Env.configureTrace, Env.homeTrace, Env.readEvent]

/-- C15 witness: Scenario B ends with 6 in the register; the already-homed run with a
failed write of 6 on a device whose register holds -1 returns true and leaves -1. -/
theorem success_never_leaves_guard_disabled_witness :
    (N5HomingMode.executeHoming (scenario true 0 true true true) 0).limitGuard = 6 ∧
    ((N5HomingMode.executeHoming (scenario true 0x1400 false true true) (-1)).ret = true ∧
      (N5HomingMode.executeHoming (scenario true 0x1400 false true true) (-1)).limitGuard
        = -1 ∧
      (N5HomingMode.executeHoming (scenario true 0x1400 false true true) (-1)).exit
        = HomingOutcome.AlreadyHomed) :=
  ⟨(success_never_leaves_guard_disabled (scenario true 0 true true true) 0).1
      (by decide) (by decide),
   by decide, by decide,
   ((success_never_leaves_guard_disabled (scenario true 0x1400 false true true) (-1)).2
      (by decide) (by decide)).1⟩

/-- C16: two runs with successful status reads whose words agree on bit 12 and on bit
10, and with the same write and homing answers, issue the same register operations in
the same order, make the same calls of the standard homing procedure at the same place
among them, and return the same value through the same return statement; started on
the same register content they also end with the same content. -/
theorem irrelevant_status_bits_do_not_interfere (env₁ env₂ : Env) (reg₁ reg₂ : Int)
    (h₁ : env₁.readOk = true) (h₂ : env₂.readOk = true)
    (hb12 : (env₁.readWord % 2 ^ 16).testBit 12 = (env₂.readWord % 2 ^ 16).testBit 12)
    (hb10 : (env₁.readWord % 2 ^ 16).testBit 10 = (env₂.readWord % 2 ^ 16).testBit 10)
    (hw : env₁.writeOk = env₂.writeOk) (hh : env₁.homingOk = env₂.homingOk) :
    (registerOps (N5HomingMode.executeHoming env₁ reg₁).trace).map Event.issued =
      (registerOps (N5HomingMode.executeHoming env₂ reg₂).trace).map Event.issued ∧
    (N5HomingMode.executeHoming env₁ reg₁).trace.filter Event.isHoming =
      (N5HomingMode.executeHoming env₂ reg₂).trace.filter Event.isHoming ∧
    (deviceOps (N5HomingMode.executeHoming env₁ reg₁).trace).map Event.issued =
      (deviceOps (N5HomingMode.executeHoming env₂ reg₂).trace).map Event.issued ∧
    (N5HomingMode.executeHoming env₁ reg₁).ret = (N5HomingMode.executeHoming env₂ reg₂).ret ∧
    (N5HomingMode.executeHoming env₁ reg₁).exit =
      (N5HomingMode.executeHoming env₂ reg₂).exit ∧
    (reg₁ = reg₂ → (N5HomingMode.executeHoming env₁ reg₁).limitGuard =
      (N5HomingMode.executeHoming env₂ reg₂).limitGuard) := by
  have hB : homedBits env₁.word = homedBits env₂.word := by
    rw [homedBits_eq_testBit, homedBits_eq_testBit]
    simp only [Env.word, hb12, hb10]
  obtain hb | hb := Bool.eq_false_or_eq_true (homedBits env₂.word)
  · have hb1 : homedBits env₁.word = true := hB.trans hb
    rw [run_alreadyHomed env₁ reg₁ h₁ hb1, run_alreadyHomed env₂ reg₂ h₂ hb]
    rw [hw]
    cases h0 : env₂.writeOk 0 <;>
      simp [Env.readEvent, h₁, h₂, registerOps, deviceOps, Event.isRegisterOp,
        Event.isDeviceOp, Event.isHoming, Event.issued, List.filter]
  · have hn1 : (env₁.readOk && homedBits env₁.word) = false := by rw [hB, hb]; simp
    have hn2 : (env₂.readOk && homedBits env₂.word) = false := by rw [hb]; simp
    obtain h0 | h0 := Bool.eq_false_or_eq_true (env₂.writeOk 0)
    · obtain h1 | h1 := Bool.eq_false_or_eq_true (env₂.writeOk 1)
      · obtain hg | hg := Bool.eq_false_or_eq_true env₂.homingOk
        · rw [run_completed env₁ reg₁ hn1 (hw ▸ h0) (hw ▸ h1) (hh.trans hg),
            run_completed env₂ reg₂ hn2 h0 h1 hg]
          simp [Env.configureTrace, Env.homeTrace, Env.readEvent, h₁, h₂, hw, hh,
            registerOps, deviceOps, Event.isRegisterOp, Event.isDeviceOp, Event.isHoming,
            Event.issued, List.filter]
        · rw [run_homingFailed env₁ reg₁ hn1 (hw ▸ h0) (hw ▸ h1) (hh.trans hg),
            run_homingFailed env₂ reg₂ hn2 h0 h1 hg]
          simp [Env.configureTrace, Env.homeTrace, Env.readEvent, h₁, h₂, hw, hh,
            registerOps, deviceOps, Event.isRegisterOp, Event.isDeviceOp, Event.isHoming,
            Event.issued, List.filter]
      · rw [run_restoreFailed env₁ reg₁ hn1 (hw ▸ h0) (hw ▸ h1),
          run_restoreFailed env₂ reg₂ hn2 h0 h1]
        simp [Env.configureTrace, Env.homeTrace, Env.readEvent, h₁, h₂, hw, hh,
          registerOps, deviceOps, Event.isRegisterOp, Event.isDeviceOp, Event.isHoming,
          Event.issued, List.filter]
    · rw [run_preConfigFailed env₁ reg₁ hn1 (hw ▸ h0), run_preConfigFailed env₂ reg₂ hn2 h0]
      simp [Env.configureTrace, Env.readEvent, h₁, h₂, hw, registerOps, deviceOps,
        Event.isRegisterOp, Event.isDeviceOp, Event.isHoming, Event.issued, List.filter]

/-- C16 witness: the words 0x1437 and 0xF7FF agree on bits 12 and 10 (both set), the
words 0x0000 and 0xEBFF agree on them too (both clear). -/
theorem irrelevant_status_bits_do_not_interfere_witness :
    (N5HomingMode.executeHoming (scenario true 0x1437 false true true) 6).ret =
      (N5HomingMode.executeHoming (scenario true 0xF7FF false true true) 6).ret ∧
    (registerOps (N5HomingMode.executeHoming (scenario true 0 true true false)
        6).trace).map Event.issued =
      (registerOps (N5HomingMode.executeHoming (scenario true 0xEBFF true true false)
        6).trace).map Event.issued :=
  ⟨(irrelevant_status_bits_do_not_interfere (scenario true 0x1437 false true true)
      (scenario true 0xF7FF false true true) 6 6 rfl rfl (by decide) (by decide)
      rfl rfl).2.2.2.1,
   (irrelevant_status_bits_do_not_interfere (scenario true 0 true true false)
      (scenario true 0xEBFF true true false) 6 6 rfl rfl (by decide) (by decide)
      rfl rfl).1⟩

end ros2_canopen
